import Mathlib

/-!
Verification development for a scrapy fork fragment consisting of three utilities:

* `scrapy/downloadermiddlewares/httpequivencoding.py` — a downloader middleware that
  reconciles a response encoding with a charset declared in a meta http-equiv
  Content-Type tag of the body;
* `scrapy/utils/curl.py` — conversion of a tokenized curl command line into request
  keyword arguments;
* `scrapy/http/request/form.py` — selection of a form element in a parsed document and
  extraction of its submittable (name, value) pairs.

The Python code is shallowly embedded below: pure functions become Lean functions,
raised exceptions become `Except` errors, and the external collaborators (the lxml
document parser, the xpath evaluator for caller-supplied xpath strings, the shell
tokenizer and the basic-auth encoder) are modelled at their interfaces, as the spec
describes them.  All definitions are executable.
-/

/-- Python exceptions raised by the embedded fragment.  The code raises `ValueError`
and `IndexError` with interpolated messages; the embedding keeps a fixed message per
raise site (the interpolated parts carry no logic). -/
inductive PyErr where
  | valueError (msg : String)
  | indexError (msg : String)
deriving DecidableEq, Repr

/-- State of a response as seen by `HttpEquivEncodingMiddleware.process_response`:
whether the response is an `HtmlResponse` instance (the `isinstance` guard), the stored
`_encoding` attribute (set before the middleware runs only when the caller supplied an
explicit encoding override), the charset named by the Content-Type HTTP header (absent
when the header declares none — the middleware never reads it), and the charset that
the regex pipeline of `process_response` extracts from a meta http-equiv Content-Type
tag of the body after stripping whitespace and comments (absent when the body declares
none). -/
structure ResponseModel where
  isHtml : Bool
  encoding : Option String
  headerCharset : Option String
  bodyMetaCharset : Option String
deriving DecidableEq, Repr

/-- Shallow embedding of `HttpEquivEncodingMiddleware.process_response`: non-HTML
responses are returned unchanged; otherwise, when the body contains a meta http-equiv
Content-Type tag with a charset, `response._encoding` is assigned that charset
unconditionally — the code consults neither the stored `_encoding` nor the header. -/
def process_response (r : ResponseModel) : ResponseModel :=
  if !r.isHtml then r
  else
    match r.bodyMetaCharset with
    | some c => { r with encoding := some c }
    | none => r

/-! ## curl_to_request_kwargs (scrapy/utils/curl.py) -/

/-- Result of `curl_parser.parse_known_args`: the recognized option values.  The
boolean safe-to-ignore flags are recognized and dropped, so they need no field. -/
structure ParsedArgs where
  url : Option String := none
  headers : List String := []
  method : Option String := none
  data : Option String := none
  auth : Option String := none
deriving DecidableEq, Repr

/-- Classification of one command-line token by the argparse option table of
`curl.py`. -/
inductive ArgKind where
  | headerOpt
  | methodOpt
  | dataOpt
  | userOpt
  | boolFlag
  | unknownOpt
  | positionalArg
deriving DecidableEq, Repr

/-- The option table registered on `curl_parser`: `-H` and `--header` (append), `-X`
and `--request`, `-d` with `--data` and `--data-raw`, `-u` and `--user`, the ignored
boolean flags, unknown options (leading dash), and positional arguments. -/
def argKind (t : String) : ArgKind :=
  if t == "-H" || t == "--header" then .headerOpt
  else if t == "-X" || t == "--request" then .methodOpt
  else if t == "-d" || t == "--data" || t == "--data-raw" then .dataOpt
  else if t == "-u" || t == "--user" then .userOpt
  else if t == "--compressed" || t == "-s" || t == "--silent" || t == "-v" ||
          t == "--verbose" || t == "-#" || t == "--progress-bar" then .boolFlag
  else if (match t.data with | '-' :: _ => true | _ => false) && t != "-" then .unknownOpt
  else .positionalArg

/-- Store the value of a value-taking option into the parse result (`store` semantics:
later occurrences overwrite, except `-H` which appends). -/
def applyValueOpt (k : ArgKind) (v : String) (pa : ParsedArgs) : ParsedArgs :=
  match k with
  | .headerOpt => { pa with headers := pa.headers ++ [v] }
  | .methodOpt => { pa with method := some v }
  | .dataOpt => { pa with data := some v }
  | .userOpt => { pa with auth := some v }
  | _ => pa

/-- Whether the option consumes the following token as its value. -/
def takesValue (k : ArgKind) : Bool :=
  match k with
  | .headerOpt | .methodOpt | .dataOpt | .userOpt => true
  | _ => false

/-- Embedding of `curl_parser.parse_known_args` for space-separated tokens (the form
used throughout the repository and the spec; attached or abbreviated option spellings
are outside the embedded fragment).  Unknown options and extra positionals are
collected into the second component, mirroring `argv` of `parse_known_args`; a
value-taking option at the end of input and a missing required `url` positional are
argparse errors, which `CurlParser.error` turns into `ValueError`. -/
def parse_known_args (toks : List String) (pa : ParsedArgs) (argv : List String) :
    Except PyErr (ParsedArgs × List String) :=
  match toks with
  | [] =>
    if pa.url.isNone then .error (.valueError "the following arguments are required: url")
    else .ok (pa, argv.reverse)
  | t :: rest =>
    let k := argKind t
    if takesValue k then
      match rest with
      | [] => .error (.valueError "expected one argument")
      | v :: rest2 => parse_known_args rest2 (applyValueOpt k v pa) argv
    else
      match k with
      | .boolFlag => parse_known_args rest pa argv
      | .unknownOpt => parse_known_args rest pa (t :: argv)
      | _ =>
        match pa.url with
        | none => parse_known_args rest { pa with url := some t } argv
        | some _ => parse_known_args rest pa (t :: argv)
termination_by structural toks

/-- Split a character list at every occurrence of a separator character (kernel
computable replacement for the library split, mirroring Python `str.split(sep)`: the
empty input yields one empty group). -/
def chSplit (sep : Char) : List Char → List (List Char)
  | [] => [[]]
  | c :: rest =>
    match chSplit sep rest with
    | [] => [[c]]
    | g :: gs => if c == sep then [] :: g :: gs else (c :: g) :: gs

/-- Python `str.split(sep)` for a one-character separator. -/
def splitOnChar (s : String) (sep : Char) : List String :=
  (chSplit sep s.data).map String.mk

/-- Python whitespace test used by `str.strip()` for the characters that occur here. -/
def isSpaceChar (c : Char) : Bool := c.isWhitespace

/-- Python `str.strip()`. -/
def pstrip (s : String) : String :=
  String.mk (((s.data.dropWhile isSpaceChar).reverse.dropWhile isSpaceChar).reverse)

/-- Python `str.lower()` (ASCII range, the only one exercised here). -/
def toLowerStr (s : String) : String := String.mk (s.data.map Char.toLower)

/-- Python `str.upper()` (ASCII range, the only one exercised here). -/
def toUpperStr (s : String) : String := String.mk (s.data.map Char.toUpper)

/-- The Python truthiness chain `a or b` for an optional string against a fallback:
an absent or empty string falls back. -/
def pyStrOr (a : Option String) (b : String) : String :=
  match a with
  | some s => if s == "" then b else s
  | none => b

/-- Python truthiness of an optional string (`if x:`) — false for both `None` and the
empty string. -/
def pyTruthy (a : Option String) : Bool :=
  match a with
  | some s => !(s == "")
  | none => false

/-- Embedding of the scheme test done via `urlparse(url).scheme`: a scheme is a
leading alphabetic character followed by alphanumerics or `+`, `-`, `.`, terminated by
a colon. -/
def hasScheme (url : String) : Bool :=
  match url.data with
  | [] => false
  | c :: _ =>
    let pre := url.data.takeWhile (fun d => d.isAlphanum || d == '+' || d == '-' || d == '.')
    c.isAlpha && pre.length > 0 &&
      (match url.data.dropWhile (fun d => d.isAlphanum || d == '+' || d == '-' || d == '.') with
       | ':' :: _ => true
       | _ => false)

/-- Python `s.split(sep, 1)` when the separator is a colon: `none` when the string has
no colon (in which case the two-variable unpacking in the code raises `ValueError`). -/
def splitFirstColon (s : String) : Option (String × String) :=
  match splitOnChar s ':' with
  | [] => none
  | [_] => none
  | a :: parts => some (a, String.intercalate ":" parts)

/-- External collaborator (w3lib `basic_auth_header`): produces the Authorization
header value from user and password.  The exact base64 encoding is outside the
embedded fragment and no claim depends on it; only the call structure is kept. -/
def basic_auth_header (user password : String) : String :=
  "Basic " ++ user ++ ":" ++ password

/-- External collaborator (`http.cookies.SimpleCookie`) modelled for plain
semicolon-separated `name=value` cookie pairs, the shape the code feeds it. -/
def parseCookieHeaderValue (v : String) : List (String × String) :=
  (splitOnChar v ';').filterMap (fun part =>
    let p := pstrip part
    match splitOnChar p '=' with
    | key :: rest =>
      if pstrip key == "" || rest.isEmpty then none
      else some (pstrip key, pstrip (String.intercalate "=" rest))
    | [] => none)

/-- Python dict update `cookies[name] = value`: replace the value of an existing key,
otherwise append the pair. -/
def dictInsert (m : List (String × String)) (k v : String) : List (String × String) :=
  if m.any (fun kv => kv.1 == k) then m.map (fun kv => if kv.1 == k then (kv.1, v) else kv)
  else m ++ [(k, v)]

/-- The header loop of `curl_to_request_kwargs`: split each `-H` value on the first
colon and strip both sides; a header named Cookie (case-insensitively, via
`name.title()`) is parsed into the cookie map instead of the header list. -/
def processHeaders : List String → List (String × String) → List (String × String) →
    Except PyErr (List (String × String) × List (String × String))
  | [], hs, cs => .ok (hs, cs)
  | h :: rest, hs, cs =>
    match splitFirstColon h with
    | none => .error (.valueError "not enough values to unpack")
    | some (n, v) =>
      let name := pstrip n
      let val := pstrip v
      if toLowerStr name == "cookie" then
        processHeaders rest hs
          ((parseCookieHeaderValue val).foldl (fun m kv => dictInsert m kv.1 kv.2) cs)
      else processHeaders rest (hs ++ [(name, val)]) cs

/-- The request keyword arguments returned by `curl_to_request_kwargs`.  An `Option`
field equal to `none` models the key being absent from the returned dict. -/
structure RequestKwargs where
  method : String
  url : String
  headers : Option (List (String × String)) := none
  cookies : Option (List (String × String)) := none
  body : Option String := none
deriving DecidableEq, Repr

/-- Method resolution of `curl_to_request_kwargs`: the result dict first receives the
upper-cased `parsed_args.method or GET` (Python truthiness, so an empty-string method
also falls back to GET), and the POST literal overwrites it when data is truthy and
the method is falsy (`if parsed_args.data:` and `if not parsed_args.method:`). -/
def resolvedMethod (pa : ParsedArgs) : String :=
  if pyTruthy pa.data && !(pyTruthy pa.method) then "POST"
  else toUpperStr (pyStrOr pa.method "GET")

/-- The part of `curl_to_request_kwargs` that runs after argument parsing: the
unknown-option check, `http://` prepending for scheme-less urls, method resolution,
header and cookie accumulation, basic-auth header (guarded by `if parsed_args.auth:`,
so an empty-string auth value is skipped), and assembly of the result dict, with the
`headers` and `cookies` keys omitted when empty and the `body` key set only under
`if parsed_args.data:` — Python truthiness, so empty-string data emits no body. -/
def kwargs_of_parsed (pa : ParsedArgs) (argv : List String)
    (ignore_unknown_options : Bool) : Except PyErr RequestKwargs :=
  if !argv.isEmpty && !ignore_unknown_options then
    .error (.valueError "Unrecognized options")
  else
    match pa.url with
    | none => .error (.valueError "the following arguments are required: url")
    | some u =>
      match processHeaders pa.headers [] [] with
      | .error e => .error e
      | .ok (hs, cs) =>
        match (match pa.auth with
               | some a =>
                 if a == "" then Except.ok hs
                 else
                   match splitFirstColon a with
                   | none => Except.error (PyErr.valueError "not enough values to unpack")
                   | some (us, pw) => Except.ok (hs ++ [("Authorization", basic_auth_header us pw)])
               | none => Except.ok hs) with
        | .error e => .error e
        | .ok hs2 =>
          .ok { method := resolvedMethod pa,
                url := if hasScheme u then u else "http://" ++ u,
                headers := if hs2.isEmpty then none else some hs2,
                cookies := if cs.isEmpty then none else some cs,
                body := if pyTruthy pa.data then pa.data else none }

/-- Shallow embedding of `curl_to_request_kwargs`.  The shell tokenizer (`shlex.split`)
is an external collaborator, so the embedding takes the token list.  The leading token
must be the literal curl program name; the remaining tokens are parsed and the result
dict assembled by `kwargs_of_parsed`. -/
def curl_to_request_kwargs (curl_args : List String)
    (ignore_unknown_options : Bool) : Except PyErr RequestKwargs :=
  match curl_args with
  | [] => .error (.indexError "list index out of range")
  | c :: rest =>
    if c != "curl" then .error (.valueError "A curl command must start with curl")
    else
      match parse_known_args rest {} [] with
      | .error e => .error e
      | .ok (pa, argv) => kwargs_of_parsed pa argv ignore_unknown_options

/-! ## FormRequest helpers (scrapy/http/request/form.py) -/

/-- An element of the parsed lxml document.  `tag` and `attrs` are the tag name and
attribute mapping; `text` is the text content (used for textarea values and option
fallback values); `desc` lists ALL descendant elements of this element in document
order, which is the view the code accesses through `descendant::` and `.//` xpath
queries and through the lxml input collections. -/
inductive HtmlElement where
  | mk (tag : String) (attrs : List (String × String)) (text : Option String)
      (desc : List HtmlElement)

/-- Tag name of an element. -/
def HtmlElement.tag : HtmlElement → String
  | .mk t _ _ _ => t

/-- Attribute list of an element. -/
def HtmlElement.attrs : HtmlElement → List (String × String)
  | .mk _ a _ _ => a

/-- Text content of an element. -/
def HtmlElement.text : HtmlElement → Option String
  | .mk _ _ tx _ => tx

/-- Descendant elements of an element, in document order. -/
def HtmlElement.desc : HtmlElement → List HtmlElement
  | .mk _ _ _ d => d

/-- lxml `element.get(key)`: the attribute value, or `none` when absent. -/
def HtmlElement.attr (e : HtmlElement) (k : String) : Option String :=
  (e.attrs.find? (fun kv => kv.1 == k)).map Prod.snd

/-- A Python value occurring as a form field value: `None`, a string, or a list of
strings (multi-select). -/
inductive PVal where
  | vnone
  | vstr (s : String)
  | vlist (l : List String)
deriving DecidableEq, Repr

/-- One (name, value) pair of the extraction output.  The name is `none` when the
Python value is `None`. -/
abbrev FieldEntry := Option String × PVal

/-- The `formdata` argument of `_get_inputs`: either a dict (ordered mapping with
unique keys, iterated via `items()`) or a list of (name, value) tuples.  The
distinction matters because the code tests membership with `in` directly on the
argument. -/
inductive FormData where
  | fdict (entries : List (Option String × PVal))
  | flist (entries : List (Option String × PVal))
deriving DecidableEq, Repr

/-- The entries of `formdata`: Python `formdata.items()` for a dict, the list itself
otherwise, and empty for `formdata=None`. -/
def fdItems : Option FormData → List (Option String × PVal)
  | none => []
  | some (.fdict es) => es
  | some (.flist es) => es

/-- Python `x in formdata` as used on the raw argument for the clickable check: key
membership for a dict; for a list of pairs the containment test compares the name
against whole (name, value) tuples, which a name never equals, so it is always
false.  A falsy (empty or missing) `formdata` was replaced by `()` by the code,
membership in which is also false. -/
def inRaw (x : Option String) : Option FormData → Bool
  | none => false
  | some (.fdict es) => es.any (fun kv => kv.1 == x)
  | some (.flist _) => false

/-- Predicate of the input-selection xpath of `_get_inputs` on the type attribute:
keep inputs with no type attribute, or whose type is not submit, image or reset
(case-insensitively) and which, for checkbox and radio types, carry a checked
attribute. -/
def typeFilterOK (e : HtmlElement) : Bool :=
  match e.attr "type" with
  | none => true
  | some t =>
    let lt := toLowerStr t
    !(lt == "submit" || lt == "image" || lt == "reset") &&
      ((e.attr "checked").isSome || !(lt == "checkbox" || lt == "radio"))

/-- The candidate form controls selected by the xpath union in `_get_inputs`:
descendant textarea, select, and input elements passing `typeFilterOK`, in document
order. -/
def candidateControls (form : HtmlElement) : List HtmlElement :=
  form.desc.filter (fun e =>
    e.tag == "textarea" || e.tag == "select" || (e.tag == "input" && typeFilterOK e))

/-- lxml option value lookup: the value attribute when present, otherwise the
stripped text (used both by `SelectElement.value` and by `value_options`). -/
def optionValue (o : HtmlElement) : String :=
  match o.attr "value" with
  | some v => v
  | none => pstrip (o.text.getD "")

/-- The option descendants of a select element, in document order. -/
def selectOptions (e : HtmlElement) : List HtmlElement :=
  e.desc.filter (fun o => o.tag == "option")

/-- The option descendants carrying a selected attribute (the explicit xpath
`.//option[@selected]` used for multi-selects, and the scan inside
`SelectElement.value`). -/
def selectedOptions (e : HtmlElement) : List HtmlElement :=
  (selectOptions e).filter (fun o => (o.attr "selected").isSome)

/-- lxml `SelectElement.value` for a single select: the value of the first selected
option, or `None` when no option is selected. -/
def selectValue (e : HtmlElement) : Option String :=
  match selectedOptions e with
  | o :: _ => some (optionValue o)
  | [] => none

/-- Embedding of `_select_value`: for a single select with no selected option the
first option value is used as default, and a select with no options at all yields the
`(None, None)` pair; a multi-select yields the list of values of the explicitly
selected options (value attribute, else text, else empty, stripped). -/
def _select_value (e : HtmlElement) : FieldEntry :=
  let n := e.attr "name"
  let multiple := (e.attr "multiple").isSome
  if !multiple then
    match selectValue e with
    | none =>
      match (selectOptions e).map optionValue with
      | [] => (none, PVal.vnone)
      | o :: _ => (n, PVal.vstr o)
    | some v => (n, PVal.vstr v)
  else
    (n, PVal.vlist ((selectedOptions e).map (fun o => pstrip (pyStrOr (o.attr "value") (pyStrOr o.text "")))))

/-- lxml `InputElement.value`: for checkable inputs (checkbox, radio) the value
attribute (default on) when checked and `None` otherwise; for other inputs the value
attribute. -/
def inputValue (e : HtmlElement) : PVal :=
  let ty := toLowerStr ((e.attr "type").getD "text")
  if ty == "checkbox" || ty == "radio" then
    if (e.attr "checked").isSome then PVal.vstr (pyStrOr (e.attr "value") "on")
    else PVal.vnone
  else
    match e.attr "value" with
    | some v => PVal.vstr v
    | none => PVal.vnone

/-- Embedding of `_value`: the (name, value) of one candidate control, dispatching
selects to `_select_value`; a textarea value is its text content. -/
def _value (e : HtmlElement) : FieldEntry :=
  if e.tag == "select" then _select_value e
  else if e.tag == "textarea" then (e.attr "name", PVal.vstr (e.text.getD ""))
  else (e.attr "name", inputValue e)

/-- Python truthiness of a name: a string that is neither absent nor empty. -/
def truthyName (n : Option String) : Bool :=
  match n with
  | some s => !(s == "")
  | none => false

/-- The Python expression `blank if v is None else v` applied to entry values. -/
def blankNone (v : PVal) : PVal :=
  match v with
  | PVal.vnone => PVal.vstr ""
  | w => w

/-- The list comprehension of `_get_inputs`: (name, value) of each candidate control,
keeping entries whose name is truthy and not among the formdata keys, and replacing a
`None` value by the empty string. -/
def autoPart (form : HtmlElement) (formdata : Option FormData) : List FieldEntry :=
  ((candidateControls form).map _value).filterMap (fun kv =>
    if truthyName kv.1 && !((fdItems formdata).map Prod.fst).contains kv.1 then
      some (kv.1, blankNone kv.2)
    else none)

/-- The final extension step of `_get_inputs`: all formdata entries whose value is not
`None`, in their given order. -/
def overridesPart (formdata : Option FormData) : List FieldEntry :=
  (fdItems formdata).filter (fun kv => !(kv.2 == PVal.vnone))

/-- The clickable candidates of `_get_clickable`: descendant inputs of type submit or
image, and descendant buttons with no type or type submit (case-insensitively), in
document order. -/
def clickables (form : HtmlElement) : List HtmlElement :=
  form.desc.filter (fun e =>
    (e.tag == "input" &&
      (match e.attr "type" with
       | some t => toLowerStr t == "submit" || toLowerStr t == "image"
       | none => false)) ||
    (e.tag == "button" &&
      (match e.attr "type" with
       | some t => toLowerStr t == "submit"
       | none => true)))

/-- lxml `form.inputs`: all descendant input, select and textarea elements in
document order (the collection indexed by the `nr` clickdata key). -/
def formInputs (form : HtmlElement) : List HtmlElement :=
  form.desc.filter (fun e => e.tag == "input" || e.tag == "select" || e.tag == "textarea")

/-- The `clickdata` argument: an optional element index under the `nr` key (Python
also allows negative indices; the claims only concern non-negative ones) plus
attribute equality criteria for the remaining keys. -/
structure ClickData where
  nr : Option Nat := none
  attrs : List (String × String) := []
deriving DecidableEq, Repr

/-- Python `clickdata.items()`: the `nr` entry (stringified, as the xpath f-string
renders it) together with the attribute criteria. -/
def clickDataItems (cd : ClickData) : List (String × String) :=
  (match cd.nr with
   | some n => [("nr", toString n)]
   | none => []) ++ cd.attrs

/-- The xpath built from clickdata items: an element matches when every (attribute,
value) criterion holds of it. -/
def matchesAllAttrs (criteria : List (String × String)) (e : HtmlElement) : Bool :=
  criteria.all (fun kv => e.attr kv.1 == some kv.2)

/-- Embedding of `_get_clickable`: with no clickable candidates return `None`; with no
clickdata return the first candidate; an in-range `nr` indexes `form.inputs`; in every
other case (including an out-of-range `nr`, which falls through) the xpath built from
ALL clickdata items is matched against the form descendants, with exactly one match
returned, several matches raising the multiple-elements ValueError and none raising
the no-clickable ValueError. -/
def _get_clickable (clickdata : Option ClickData) (form : HtmlElement) :
    Except PyErr (Option (Option String × String)) :=
  match clickables form with
  | [] => .ok none
  | el0 :: _ =>
    match clickdata with
    | none => .ok (some (el0.attr "name", (el0.attr "value").getD ""))
    | some cd =>
      match (match cd.nr with
             | some nr => ((formInputs form)[nr]?).map
                 (fun el => (el.attr "name", (el.attr "value").getD ""))
             | none => none) with
      | some res => .ok (some res)
      | none =>
        match form.desc.filter (matchesAllAttrs (clickDataItems cd)) with
        | [el] => .ok (some (el.attr "name", (el.attr "value").getD ""))
        | [] => .error (.valueError "No clickable element matching clickdata")
        | _ => .error (.valueError "Multiple elements found matching the criteria in clickdata")

/-- The clickable entry that `_get_inputs` appends: the resolved clickable, provided
its name is not `in` the raw formdata argument and is not `None` (an empty-string name
passes both tests), and nothing when resolution returned `None` or failed. -/
def clickPart (form : HtmlElement) (formdata : Option FormData) (clickdata : Option ClickData) :
    List FieldEntry :=
  match _get_clickable clickdata form with
  | .ok (some c) => if !(inRaw c.1 formdata) && !(c.1 == none) then [(c.1, PVal.vstr c.2)] else []
  | _ => []

/-- Embedding of `_get_inputs`: the filtered auto-extracted values, then (unless
`dont_click`) the clickable entry subject to its filter, then the formdata entries
with non-`None` values; a ValueError raised by `_get_clickable` propagates. -/
def _get_inputs (form : HtmlElement) (formdata : Option FormData) (dont_click : Bool)
    (clickdata : Option ClickData) : Except PyErr (List FieldEntry) :=
  let values := autoPart form formdata
  if dont_click then .ok (values ++ overridesPart formdata)
  else
    match _get_clickable clickdata form with
    | .error e => .error e
    | .ok clickable =>
      let values2 :=
        match clickable with
        | some c =>
          if !(inRaw c.1 formdata) && !(c.1 == none) then values ++ [(c.1, PVal.vstr c.2)]
          else values
        | none => values
      .ok (values2 ++ overridesPart formdata)

/-- The document root together with itself as an element list: the node set searched
by the `//form` xpath. -/
def allElements (root : HtmlElement) : List HtmlElement :=
  root :: root.desc

/-- Embedding of `_get_form`.  The lxml parsing of the response text is the external
parser collaborator, so the embedding starts from the parsed root.  The caller xpath
(`formxpath`) is evaluated by the external selector collaborator; its result is
modelled as the matched nodes each given with its ancestor chain (the node first, then
its parents up to the root), which is what the upward `getparent` walk traverses.  A
`None` formnumber makes the Python function fall off the end and return `None`, hence
the optional result. -/
def _get_form (root : HtmlElement) (formname formid : Option String) (formnumber : Option Nat)
    (formxpath : Option (List (List HtmlElement))) : Except PyErr (Option HtmlElement) :=
  let forms := (allElements root).filter (fun e => e.tag == "form")
  if forms.isEmpty then .error (.valueError "No form element found in response")
  else
    match (match formname with
           | some nm => ((allElements root).filter
               (fun (e : HtmlElement) => e.tag == "form" && e.attr "name" == some nm)).head?
           | none => none) with
    | some f => .ok (some f)
    | none =>
      match (match formid with
             | some i => ((allElements root).filter
                 (fun (e : HtmlElement) => e.tag == "form" && e.attr "id" == some i)).head?
             | none => none) with
      | some f => .ok (some f)
      | none =>
        match formxpath with
        | some nodes =>
          match nodes with
          | chain :: _ =>
            match chain.find? (fun (e : HtmlElement) => e.tag == "form") with
            | some el => .ok (some el)
            | none => .error (.valueError "No form element found with formxpath")
          | [] => .error (.valueError "No form element found with formxpath")
        | none =>
          match formnumber with
          | some n =>
            match forms[n]? with
            | some f => .ok (some f)
            | none => .error (.indexError "Form number not found in response")
          | none => .ok none


/-! ## Concrete documents used by witnesses and counterexamples -/

/-- A document with no form element anywhere. -/
def docNoForm : HtmlElement := .mk "html" [] none [.mk "body" [] none []]

/-- A form with one submit input and one text input (two form controls). -/
def formC4 : HtmlElement := .mk "form" [] none
  [.mk "input" [("type", "submit"), ("name", "b")] none [],
   .mk "input" [("type", "text"), ("name", "t"), ("value", "x")] none []]

/-- A form whose only control is a submit input with an empty-string name. -/
def formC5 : HtmlElement := .mk "form" [] none
  [.mk "input" [("type", "submit"), ("name", ""), ("value", "v")] none []]

/-- A form whose only control is a submit input named btn. -/
def formC6 : HtmlElement := .mk "form" [] none
  [.mk "input" [("type", "submit"), ("name", "btn"), ("value", "go")] none []]

/-- The overrides list of the C6 scenario: a list of pairs sharing the clickable name. -/
def esC6 : List (Option String × PVal) := [(some "btn", PVal.vstr "1")]

/-- An untyped button, hence a clickable candidate. -/
def buttonB : HtmlElement := .mk "button" [("name", "b")] none []

/-- A form with a clickable button and a text input. -/
def formC7 : HtmlElement := .mk "form" [] none
  [buttonB, .mk "input" [("type", "text"), ("name", "t")] none []]

/-- A form with a text input and a submit input, for the ordering scenario. -/
def formC8 : HtmlElement := .mk "form" [] none
  [.mk "input" [("type", "text"), ("name", "a"), ("value", "1")] none [],
   .mk "input" [("type", "submit"), ("name", "s"), ("value", "go")] none []]

/-- Overrides for the ordering scenario: one name colliding with an auto-extracted
field, and one entry with an explicit None value. -/
def fdC8 : FormData := .flist [(some "a", PVal.vstr "2"), (some "z", PVal.vnone)]

/-- A form with no clickable candidate (only a text input). -/
def formC10 : HtmlElement := .mk "form" [] none
  [.mk "input" [("type", "text"), ("name", "t")] none []]

/-- The response state of the repository test named test_prioritise_encoding_argument,
taken as an HtmlResponse so that the isinstance guard passes: explicit caller encoding
utf-16, header charset utf-8, body meta charset windows-1252. -/
def overrideResponse : ResponseModel :=
  { isHtml := true, encoding := some "utf-16", headerCharset := some "utf-8",
    bodyMetaCharset := some "windows-1252" }

/-- An HTML response with no header charset whose body declares windows-1252 (the
scenario of the repository test named test_no_headers_encoding). -/
def noHeaderResponse : ResponseModel :=
  { isHtml := true, encoding := none, headerCharset := none,
    bodyMetaCharset := some "windows-1252" }

/-- An HTML response whose header and body declare the same charset (the scenario of
the repository test named test_same_encoding). -/
def sameCharsetResponse : ResponseModel :=
  { isHtml := true, encoding := none, headerCharset := some "utf-8",
    bodyMetaCharset := some "utf-8" }

/-! ## Shared lemmas -/

/-- Decomposition of a successful `_get_inputs` run into its three ordered segments. -/
theorem getInputs_decomp (form : HtmlElement) (fd : Option FormData) (dc : Bool)
    (cd : Option ClickData) (l : List FieldEntry) (h : _get_inputs form fd dc cd = .ok l) :
    l = autoPart form fd ++ (if dc then [] else clickPart form fd cd) ++ overridesPart fd := by
  cases dc with
  | true =>
    simp only [_get_inputs, if_true] at h
    simp only [if_true]
    simp only [Except.ok.injEq] at h
    simp [← h]
  | false =>
    simp only [Bool.false_eq_true, if_false]
    cases hc : _get_clickable cd form with
    | error e => simp [_get_inputs, hc] at h
    | ok clickable =>
      cases clickable with
      | none =>
        simp only [_get_inputs, hc, Bool.false_eq_true, if_false, Except.ok.injEq] at h
        simp [clickPart, hc, ← h]
      | some c =>
        by_cases hcond : (!(inRaw c.1 fd) && !(c.1 == none)) = true
        · simp only [_get_inputs, hc, Bool.false_eq_true, if_false, if_pos hcond,
            Except.ok.injEq] at h
          have hcond2 := hcond
          simp only [Bool.and_eq_true, Bool.not_eq_true', beq_eq_false_iff_ne] at hcond2
          simp [clickPart, hc, hcond2.1, hcond2.2, ← h]
        · simp only [_get_inputs, hc, Bool.false_eq_true, if_false, if_neg hcond,
            Except.ok.injEq] at h
          simp only [clickPart, hc, ← h]
          rw [if_neg hcond]
          simp

/-- A truthy name is neither absent nor the empty string. -/
theorem truthyName_spec (n : Option String) (h : truthyName n = true) :
    n ≠ none ∧ n ≠ some "" := by
  cases n with
  | none => simp [truthyName] at h
  | some s =>
    refine ⟨by simp, ?_⟩
    simp only [truthyName, Bool.not_eq_true'] at h
    intro hs
    injection hs with hs
    simp [hs] at h

/-- Every auto-extracted entry has a truthy name. -/
theorem autoPart_names (form : HtmlElement) (fd : Option FormData) (e : FieldEntry)
    (h : e ∈ autoPart form fd) : e.1 ≠ none ∧ e.1 ≠ some "" := by
  unfold autoPart at h
  obtain ⟨kv, hmem, hif⟩ := List.mem_filterMap.1 h
  by_cases hcond : (truthyName kv.1 &&
      !((fdItems fd).map Prod.fst).contains kv.1) = true
  · rw [if_pos hcond] at hif
    injection hif with hif
    simp only [Bool.and_eq_true] at hcond
    have := truthyName_spec kv.1 hcond.1
    rw [← hif]
    exact this
  · rw [if_neg hcond] at hif; cases hif

/-- The clickable entry, when appended, has a non-absent name. -/
theorem clickPart_names (form : HtmlElement) (fd : Option FormData) (cd : Option ClickData)
    (e : FieldEntry) (h : e ∈ clickPart form fd cd) : e.1 ≠ none := by
  unfold clickPart at h
  split at h
  case h_1 c heq =>
    split at h
    case isTrue hcond =>
      simp only [List.mem_singleton] at h
      subst h
      simp only [Bool.and_eq_true] at hcond
      have h2 := hcond.2
      simp only [Bool.not_eq_true', beq_eq_false_iff_ne] at h2
      intro hn
      exact h2 hn
    case isFalse => cases h
  case h_2 => cases h

/-- A falsy optional string makes the Python `or` chain fall back. -/
theorem pyStrOr_of_falsy (n : Option String) (b : String) (h : pyTruthy n = false) :
    pyStrOr n b = b := by
  cases n with
  | none => rfl
  | some s =>
    have hs : s = "" := by
      by_contra hne
      simp [pyTruthy, hne] at h
    subst hs
    rfl

/-- A truthy optional string survives the Python `or` chain. -/
theorem pyStrOr_of_truthy (n : Option String) (b : String) (h : pyTruthy n = true) :
    pyStrOr n b = n.getD "" := by
  cases n with
  | none => simp [pyTruthy] at h
  | some s =>
    simp only [pyTruthy, Bool.not_eq_true'] at h
    simp [pyStrOr, h]

/-! ## Claim theorems -/

/-- C1: the claim states that a caller-supplied explicit encoding override is never
changed by encoding reconciliation.  Evaluating the embedded `process_response` on the
scenario of the repository test named test_prioritise_encoding_argument (explicit
encoding utf-16, body declaring windows-1252), taken on an HtmlResponse so the
isinstance guard passes, shows the stored encoding being overwritten with the body
charset: the code contradicts its own test, which asserts the encoding stays utf-16,
so the claim describes the intent and the code is at fault. -/
theorem C1_override_not_preserved :
    (process_response overrideResponse).encoding = some "windows-1252" ∧
      process_response overrideResponse ≠ overrideResponse := by
  constructor
  · rfl
  · decide

/-- C2: the claim states that reconciliation leaves the stored encoding unchanged
when the header encoding is absent or when header and document agree, producing a new
encoding only when both are present and disagree.  Evaluating the embedded
`process_response` shows the stored encoding being set to the body charset in both of
these cases (the code never consults the header), contradicting the middleware
docstring (obey http-equiv when the HTTP header states another encoding) and the
repository tests named test_no_headers_encoding and test_same_encoding, whose
docstrings state the response is not modified. -/
theorem C2_changes_despite_header :
    ((process_response noHeaderResponse).encoding = some "windows-1252" ∧
      noHeaderResponse.headerCharset = none ∧
      process_response noHeaderResponse ≠ noHeaderResponse) ∧
    ((process_response sameCharsetResponse).encoding = some "utf-8" ∧
      sameCharsetResponse.headerCharset = sameCharsetResponse.bodyMetaCharset ∧
      process_response sameCharsetResponse ≠ sameCharsetResponse) := by
  decide

/-- C3: a document containing zero form elements makes `_get_form` fail with the
no-form ValueError (the NotFound of the spec) for every combination of the name, id,
index and xpath parameters — the check is the first thing the function does, so the
error is independent of all other arguments. -/
theorem C3_zero_forms_notfound (root : HtmlElement) (formname formid : Option String)
    (formnumber : Option Nat) (formxpath : Option (List (List HtmlElement)))
    (h : (allElements root).filter (fun (e : HtmlElement) => e.tag == "form") = []) :
    _get_form root formname formid formnumber formxpath =
      .error (.valueError "No form element found in response") := by
  simp [_get_form, h]

/-- Witness for C3 on a concrete formless document and non-trivial parameters. -/
theorem C3_zero_forms_notfound_witness :
    _get_form docNoForm (some "f") (some "g") (some 3) (some [[docNoForm]]) =
      .error (.valueError "No form element found in response") :=
  C3_zero_forms_notfound docNoForm (some "f") (some "g") (some 3) (some [[docNoForm]]) rfl

/-- C4 counterexample: the claim states an out-of-range nr yields no clickable entry
and raises no error, but on a form with one clickable and two controls, clickdata nr=5
raises the no-clickable ValueError: the out-of-range index falls through to the
attribute-match branch, whose xpath includes the nr key itself and matches nothing. -/
theorem C4_counterexample :
    _get_clickable (some { nr := some 5 }) formC4 =
      .error (.valueError "No clickable element matching clickdata") := rfl

/-- C4 (amended): when clickdata supplies an index nr that is at least the number of
form controls, the index step produces nothing and resolution falls through to
attribute matching over ALL clickdata items including nr itself; when no descendant
carries the corresponding attributes (the normal case, since nr is not an HTML
attribute) `_get_clickable` raises the no-clickable ValueError instead of silently
omitting the entry. -/
theorem C4_out_of_range_nr_falls_through (form : HtmlElement) (n : Nat)
    (attrs : List (String × String))
    (h1 : (clickables form).isEmpty = false)
    (h2 : (formInputs form).length ≤ n)
    (h3 : form.desc.filter (matchesAllAttrs (("nr", toString n) :: attrs)) = []) :
    _get_clickable (some { nr := some n, attrs := attrs }) form =
      .error (.valueError "No clickable element matching clickdata") := by
  cases hc : clickables form with
  | nil => rw [hc] at h1; simp at h1
  | cons a as =>
    have hnone : (formInputs form)[n]? = none := List.getElem?_eq_none h2
    simp [_get_clickable, hc, hnone, clickDataItems, h3]

/-- Witness for the amended C4 on a concrete form and clickdata. -/
theorem C4_witness :
    _get_clickable (some { nr := some 7, attrs := [("x", "y")] }) formC4 =
      .error (.valueError "No clickable element matching clickdata") :=
  C4_out_of_range_nr_falls_through formC4 7 [("x", "y")] rfl (by decide) rfl

/-- C5 counterexample: the claim states every extracted entry has a name that is
neither absent nor empty, but a submit input with an empty-string name is resolved as
the clickable and appended (only a None name is filtered there), so the output
contains an empty-string name. -/
theorem C5_counterexample :
    _get_inputs formC5 none false none = .ok [(some "", PVal.vstr "v")] ∧
      ¬ (∀ l, _get_inputs formC5 none false none = .ok l →
            ∀ e ∈ l, e.1 ≠ none ∧ e.1 ≠ some "") := by
  refine ⟨rfl, fun hclaim => ?_⟩
  exact (hclaim [(some "", PVal.vstr "v")] rfl (some "", PVal.vstr "v") (by simp)).2 rfl

/-- C5 (amended): every entry of the extraction output either comes from the
overrides extension (whose names are unchecked), or is the clickable entry (whose name
is never absent but may be the empty string), or is an auto-extracted entry, whose
name is neither absent nor the empty string. -/
theorem C5_names (form : HtmlElement) (fd : Option FormData) (dc : Bool)
    (cd : Option ClickData) (l : List FieldEntry) (e : FieldEntry)
    (h : _get_inputs form fd dc cd = .ok l) (he : e ∈ l) :
    e ∈ overridesPart fd ∨ (e ∈ clickPart form fd cd ∧ e.1 ≠ none) ∨
      (e.1 ≠ none ∧ e.1 ≠ some "") := by
  have hd := getInputs_decomp form fd dc cd l h
  subst hd
  rcases List.mem_append.1 he with h12 | h3
  · rcases List.mem_append.1 h12 with h1 | h2
    · exact Or.inr (Or.inr (autoPart_names form fd e h1))
    · cases dc with
      | true => simp at h2
      | false =>
        simp only [Bool.false_eq_true, if_false] at h2
        exact Or.inr (Or.inl ⟨h2, clickPart_names form fd cd e h2⟩)
  · exact Or.inl h3

/-- Witness for the amended C5 at the clickable entry of a concrete run. -/
theorem C5_names_witness :
    (some "s", PVal.vstr "go") ∈ overridesPart (some fdC8) ∨
      ((some "s", PVal.vstr "go") ∈ clickPart formC8 (some fdC8) none ∧
        ((some "s", PVal.vstr "go") : FieldEntry).1 ≠ none) ∨
      (((some "s", PVal.vstr "go") : FieldEntry).1 ≠ none ∧
        ((some "s", PVal.vstr "go") : FieldEntry).1 ≠ some "") :=
  C5_names formC8 (some fdC8) false none
    [(some "s", PVal.vstr "go"), (some "a", PVal.vstr "2")] (some "s", PVal.vstr "go")
    rfl (by decide)

/-- C6 counterexample: the claim states a clickable whose name equals an overrides
entry name is not appended whether overrides is a mapping or a list of pairs; with the
list form, the membership test compares the name against whole pairs and never
matches, so the clickable named btn is appended although the overrides list contains
an entry named btn. -/
theorem C6_counterexample :
    _get_inputs formC6 (some (.flist esC6)) false none =
      .ok [(some "btn", PVal.vstr "go"), (some "btn", PVal.vstr "1")] := rfl

/-- C6 (amended): when overrides is a dict, a resolved clickable whose name is one of
its keys is suppressed from the output; when overrides is a list of pairs, the raw
containment test never matches a name against the pairs, so the clickable entry is
appended even when its name collides with an overrides entry. -/
theorem C6_click_suppression (form : HtmlElement) (cd : Option ClickData) (nm v : String)
    (es : List (Option String × PVal)) (l l2 : List FieldEntry)
    (hclick : _get_clickable cd form = .ok (some (some nm, v))) :
    ((some nm) ∈ es.map Prod.fst →
        _get_inputs form (some (.fdict es)) false cd = .ok l →
        l = autoPart form (some (.fdict es)) ++ overridesPart (some (.fdict es))) ∧
    (_get_inputs form (some (.flist es)) false cd = .ok l2 →
        l2 = autoPart form (some (.flist es)) ++ (some nm, PVal.vstr v) ::
          overridesPart (some (.flist es))) := by
  constructor
  · intro hk h
    have hd := getInputs_decomp form (some (.fdict es)) false cd l h
    have hin : inRaw (some nm) (some (.fdict es)) = true := by
      simp only [inRaw, List.any_eq_true]
      obtain ⟨kv, hkv, hfst⟩ := List.mem_map.1 hk
      exact ⟨kv, hkv, by simp [hfst]⟩
    have hcp : clickPart form (some (.fdict es)) cd = [] := by
      unfold clickPart
      rw [hclick]
      simp [hin]
    subst hd
    simp [hcp]
  · intro h
    have hd := getInputs_decomp form (some (.flist es)) false cd l2 h
    have hcp : clickPart form (some (.flist es)) cd = [(some nm, PVal.vstr v)] := by
      unfold clickPart
      rw [hclick]
      simp [inRaw]
    subst hd
    simp [hcp]

/-- Witness for the amended C6 on a concrete form with both overrides shapes. -/
theorem C6_witness :
    ([(some "btn", PVal.vstr "1")] : List FieldEntry) =
        autoPart formC6 (some (.fdict esC6)) ++ overridesPart (some (.fdict esC6)) ∧
      ([(some "btn", PVal.vstr "go"), (some "btn", PVal.vstr "1")] : List FieldEntry) =
        autoPart formC6 (some (.flist esC6)) ++ (some "btn", PVal.vstr "go") ::
          overridesPart (some (.flist esC6)) :=
  ⟨(C6_click_suppression formC6 none "btn" "go" esC6
      [(some "btn", PVal.vstr "1")]
      [(some "btn", PVal.vstr "go"), (some "btn", PVal.vstr "1")] rfl).1 (by decide) rfl,
   (C6_click_suppression formC6 none "btn" "go" esC6
      [(some "btn", PVal.vstr "1")]
      [(some "btn", PVal.vstr "go"), (some "btn", PVal.vstr "1")] rfl).2 rfl⟩

/-- C7: on a form with at least one clickable candidate, clickdata that provides only
attribute criteria selects the form descendants matching all of them: a unique match
yields its (name, value-or-empty) pair, no match raises the no-clickable ValueError,
and several matches raise the multiple-elements ValueError. -/
theorem C7_attr_match (form : HtmlElement) (attrs : List (String × String))
    (el e1 e2 : HtmlElement) (rest : List HtmlElement)
    (h : (clickables form).isEmpty = false) :
    (form.desc.filter (matchesAllAttrs attrs) = [el] →
        _get_clickable (some { nr := none, attrs := attrs }) form =
          .ok (some (el.attr "name", (el.attr "value").getD ""))) ∧
    (form.desc.filter (matchesAllAttrs attrs) = [] →
        _get_clickable (some { nr := none, attrs := attrs }) form =
          .error (.valueError "No clickable element matching clickdata")) ∧
    (form.desc.filter (matchesAllAttrs attrs) = e1 :: e2 :: rest →
        _get_clickable (some { nr := none, attrs := attrs }) form =
          .error (.valueError "Multiple elements found matching the criteria in clickdata")) := by
  cases hc : clickables form with
  | nil => rw [hc] at h; simp at h
  | cons a as =>
    have hitems : clickDataItems { nr := none, attrs := attrs } = attrs := by
      simp [clickDataItems]
    refine ⟨fun hf => ?_, fun hf => ?_, fun hf => ?_⟩ <;>
      simp [_get_clickable, hc, hitems, hf]

/-- Witness for C7: the unique-match case on a concrete form. -/
theorem C7_witness :
    _get_clickable (some { nr := none, attrs := [("name", "b")] }) formC7 =
      .ok (some (some "b", "")) :=
  (C7_attr_match formC7 [("name", "b")] buttonB buttonB buttonB [] rfl).1 rfl

/-- C8: the extraction output is the filtered auto-extracted entries in document
order, then the clickable entry when one is appended, then the overrides entries with
non-None values in their given order; an overrides entry with a non-None value is
always present in the output, never filtered by name collision with earlier
entries. -/
theorem C8_ordering (form : HtmlElement) (fd : Option FormData) (dc : Bool)
    (cd : Option ClickData) (l : List FieldEntry) (kv : Option String × PVal)
    (h : _get_inputs form fd dc cd = .ok l) :
    l = autoPart form fd ++ (if dc then [] else clickPart form fd cd) ++ overridesPart fd ∧
      (kv ∈ fdItems fd → kv.2 ≠ PVal.vnone → kv ∈ l) := by
  have hd := getInputs_decomp form fd dc cd l h
  refine ⟨hd, fun hm hv => ?_⟩
  subst hd
  refine List.mem_append.2 (Or.inr ?_)
  refine List.mem_filter.2 ⟨hm, ?_⟩
  rw [beq_eq_false_iff_ne.mpr hv]
  rfl

/-- Witness for C8: the colliding override entry of a concrete run is present. -/
theorem C8_witness :
    (some "a", PVal.vstr "2") ∈
      ([(some "s", PVal.vstr "go"), (some "a", PVal.vstr "2")] : List FieldEntry) :=
  (C8_ordering formC8 (some fdC8) false none
      [(some "s", PVal.vstr "go"), (some "a", PVal.vstr "2")] (some "a", PVal.vstr "2")
      rfl).2 (by decide) (by decide)

/-- C9: the method of the translated request is the upper-cased explicit -X value
when one is given, else POST when -d data was supplied, else GET — where given and
supplied follow the Python truthiness of the source (`parsed_args.method or GET`,
`if parsed_args.data:`), so an empty-string -X or -d value counts as absent.  The two
concrete translations of the spec hold, with no headers, cookies or body keys for the
plain example.com command; the third conjunct exercises the truthiness edge: an empty
explicit method with data still resolves to POST. -/
theorem C9_method_resolution (pa : ParsedArgs) (argv : List String) (ig : Bool)
    (r : RequestKwargs) (h : kwargs_of_parsed pa argv ig = .ok r) :
    r.method = (if pyTruthy pa.method then toUpperStr (pa.method.getD "")
                else if pyTruthy pa.data then "POST" else "GET") ∧
      curl_to_request_kwargs ["curl", "example.com"] true =
        .ok { method := "GET", url := "http://example.com" } ∧
      curl_to_request_kwargs ["curl", "-X", "POST", "-d", "a=1", "http://x.test"] true =
        .ok { method := "POST", url := "http://x.test", body := some "a=1" } ∧
      curl_to_request_kwargs ["curl", "-X", "", "-d", "a=1", "http://x.test"] true =
        .ok { method := "POST", url := "http://x.test", body := some "a=1" } := by
  refine ⟨?_, rfl, rfl, rfl⟩
  have hr : r.method = resolvedMethod pa := by
    unfold kwargs_of_parsed at h
    repeat' split at h
    all_goals first
      | (simp only [Except.ok.injEq] at h; subst h; rfl)
      | simp at h
  rw [hr]
  unfold resolvedMethod
  cases htm : pyTruthy pa.method with
  | true =>
    rw [pyStrOr_of_truthy pa.method "GET" htm]
    simp
  | false =>
    rw [pyStrOr_of_falsy pa.method "GET" htm]
    cases htd : pyTruthy pa.data <;> rfl

/-- Witness for C9 at a concrete parse result with data and no explicit method. -/
theorem C9_witness :
    ("POST" : String) = (if pyTruthy (none : Option String)
        then toUpperStr ((none : Option String).getD "")
        else if pyTruthy (some "d" : Option String) then "POST" else "GET") ∧
      curl_to_request_kwargs ["curl", "example.com"] true =
        .ok { method := "GET", url := "http://example.com" } ∧
      curl_to_request_kwargs ["curl", "-X", "POST", "-d", "a=1", "http://x.test"] true =
        .ok { method := "POST", url := "http://x.test", body := some "a=1" } ∧
      curl_to_request_kwargs ["curl", "-X", "", "-d", "a=1", "http://x.test"] true =
        .ok { method := "POST", url := "http://x.test", body := some "a=1" } :=
  C9_method_resolution { url := some "x", data := some "d" } [] true
    { method := "POST", url := "http://x", body := some "d" } rfl

/-- C10: on a form with zero clickable candidates (no submit or image input and no
untyped or submit button), `_get_clickable` returns None and raises no error whatever
clickdata says — in particular attribute criteria are never evaluated. -/
theorem C10_no_clickables (form : HtmlElement) (cd : Option ClickData)
    (h : clickables form = []) : _get_clickable cd form = .ok none := by
  unfold _get_clickable
  rw [h]

/-- Witness for C10: clickdata with both an index and matching attribute criteria on
a clickable-free form. -/
theorem C10_witness :
    _get_clickable (some { nr := some 0, attrs := [("name", "t")] }) formC10 = .ok none :=
  C10_no_clickables formC10 (some { nr := some 0, attrs := [("name", "t")] }) rfl
